import Mathlib

/-!
Verification of the view layer of the photo_sorter application.

The repository contains two front-ends (a DearPyGui immediate-mode view in
`src/view/dearpygui_view.py` and a Tkinter view in `src/view/main_window.py`)
plus their modal dialogs (`src/view/dialogs.py`).  This file gives a shallow
embedding of the event-handling and rendering state the spec talks about:
callbacks are modelled as numeric handler identifiers, an invocation of a
handler with an integer argument is recorded as a pair, and each stateful
piece of the UI is an explicit record with step functions translated from the
Python source.
-/

namespace PhotoSorter

/-- A registered callback is identified by a numeric id. -/
abbrev Handler := Nat

/-- One recorded callback invocation: the handler id and the index argument
it was applied to. -/
abbrev Call := Handler × Nat

/-- Number of invocations of handler `h` in a recorded list of calls. -/
def countCalls (h : Handler) (calls : List Call) : Nat :=
  (calls.filter (fun c => c.1 == h)).length

/-! ### DearPyGuiView: category callback registry and dispatch

From `src/view/dearpygui_view.py`.  `self._category_callbacks` is a dict from
index to a dict with keys `"click"` and `"right"`; we model it as a function
`Nat → Option (Handler × Handler)`.  `self._modal_open` is a boolean. -/

/-- State of the DearPyGui view relevant to category dispatch:
`_category_callbacks` and `_modal_open`. -/
structure DPGState where
  categoryCallbacks : Nat → Option (Handler × Handler)
  modalOpen : Bool

/-- Fresh view: `self._category_callbacks = {}`, `self._modal_open = False`. -/
def DPGState.init : DPGState := ⟨fun _ => none, false⟩

/-- Model of `DearPyGuiView.bind_category`: stores the click/right-click pair under
key `idx` in `_category_callbacks`. -/
def dpgBindCategory (st : DPGState) (idx : Nat) (onClick onRight : Handler) :
    DPGState :=
  { st with
    categoryCallbacks :=
      Function.update st.categoryCallbacks idx (some (onClick, onRight)) }

/-- Model of `DearPyGuiView._on_category_click`: if `idx in self._category_callbacks`,
invokes the stored `"click"` handler with `idx`.  (The visual feedback pulse
it also triggers is modelled separately by `showButtonFeedback`.)  Returns the
list of handler invocations performed. -/
def dpgOnCategoryClick (st : DPGState) (idx : Nat) : List Call :=
  match st.categoryCallbacks idx with
  | some h => [(h.1, idx)]
  | none => []

/-- Model of `DearPyGuiView._on_category_right_click`: if bound, invokes the stored
`"right"` handler with `idx`. -/
def dpgOnCategoryRightClick (st : DPGState) (idx : Nat) : List Call :=
  match st.categoryCallbacks idx with
  | some h => [(h.2, idx)]
  | none => []

/-- Model of `DearPyGuiView._handle_keyboard_category`: returns immediately when
`self._modal_open` is true, else calls `_on_category_click(idx)`. -/
def dpgHandleKeyboardCategory (st : DPGState) (idx : Nat) : List Call :=
  if st.modalOpen then [] else dpgOnCategoryClick st idx

/-! ### MainWindow (Tkinter): category bindings and keyboard shortcuts

From `src/view/main_window.py`.  `bind_category` binds `<Button-1>` and
`<Button-3>` on the button at `idx` and then overwrites the single
window-level fields `category_click_callback` / `category_right_callback`.
`bind_keyboard_shortcuts` binds key `str(i+1)` to a lambda that calls
`self.category_click_callback(idx)` when that field is set; the lambda reads
no modal flag.  The Tkinter window defines no modal flag of its own; we carry
the process-wide modal condition as a field `modalOpen` to be able to state
the keyboard claims, and the step functions read it exactly where the source
does (nowhere). -/

/-- State of the Tkinter `MainWindow` relevant to category dispatch. -/
structure TkState where
  buttonBindings : Nat → Option (Handler × Handler)
  categoryClickCallback : Option Handler
  categoryRightCallback : Option Handler
  modalOpen : Bool

/-- Fresh window: no per-button bindings, both window-level callback fields
`None`. -/
def TkState.init : TkState := ⟨fun _ => none, none, none, false⟩

/-- Model of `MainWindow.bind_category`: binds the pair to button `idx` and overwrites
the window-level `category_click_callback` / `category_right_callback`
fields. -/
def tkBindCategory (st : TkState) (idx : Nat) (onClick onRight : Handler) :
    TkState :=
  { st with
    buttonBindings :=
      Function.update st.buttonBindings idx (some (onClick, onRight)),
    categoryClickCallback := some onClick,
    categoryRightCallback := some onRight }

/-- Left mouse click on category button `idx`: the `<Button-1>` binding
installed by `bind_category` calls `on_click(idx)` once (inside
`handle_click`). -/
def tkButtonLeftClick (st : TkState) (idx : Nat) : List Call :=
  match st.buttonBindings idx with
  | some h => [(h.1, idx)]
  | none => []

/-- Right mouse click on category button `idx`: the `<Button-3>` binding
calls `on_right_click(idx)` once. -/
def tkButtonRightClick (st : TkState) (idx : Nat) : List Call :=
  match st.buttonBindings idx with
  | some h => [(h.2, idx)]
  | none => []

/-- Number key `idx+1` pressed: the binding from `bind_keyboard_shortcuts`
calls `self.category_click_callback(idx)` if that field is set — the single
most recently stored click handler, not the one bound at `idx`; no modal
flag is consulted. -/
def tkKeyPress (st : TkState) (idx : Nat) : List Call :=
  match st.categoryClickCallback with
  | some h => [(h, idx)]
  | none => []

/-! ### Python string helpers

`str.strip()` with no argument removes leading and trailing whitespace; the
whitespace characters relevant here are the ASCII ones. -/

/-- ASCII whitespace, as recognised by Python's `str.strip()` and by `\s`
in the `re` module (for ASCII input). -/
def pyIsSpace (c : Char) : Bool :=
  c == ' ' || c == '\t' || c == '\n' || c == '\r' ||
  c == '\x0b' || c == '\x0c'

/-- Python `str.strip()` on a character list: drop leading and trailing
whitespace. -/
def pyStrip (l : List Char) : List Char :=
  ((l.dropWhile pyIsSpace).reverse.dropWhile pyIsSpace).reverse

/-- Python `str.strip()` on a string. -/
def pyStripStr (s : String) : String :=
  String.mk (pyStrip s.data)

/-! ### Category configuration dialog (`configure_category` in
`src/view/dialogs.py`)

The dialog holds a name input, a folder input with a Browse button, and
Save / Cancel / Delete buttons.  `_update_ok_state` enables Save exactly when
both fields are non-empty after `strip()`; it runs when the dialog opens, on
every edit of either input, and after a successful Browse.  Each terminal
button invokes the supplied callback once with a dict
`{action, idx, name?, path?}`, clears the view's modal flag and deletes the
dialog window.  The toolkit delivers a button's callback only while the
button is enabled and the window still exists; events are processed one at a
time on the UI thread. -/

/-- The `action` field of a dialog outcome. -/
inductive DAction
  | save
  | cancel
  | delete
deriving DecidableEq, Repr

/-- The dict passed to the `configure_category` callback. -/
structure Outcome where
  action : DAction
  idx : Nat
  name : Option String
  path : Option String
deriving DecidableEq, Repr

/-- State of one `configure_category` dialog invocation, together with the
view's modal flag and the list of callback invocations made so far. -/
structure DialogState where
  idx : Nat
  nameVal : String
  pathVal : String
  okEnabled : Bool
  isOpen : Bool
  modalOpen : Bool
  emitted : List Outcome
deriving DecidableEq, Repr

/-- Model of `_update_ok_state`: enable Save exactly when both stripped fields are
non-empty. -/
def updateOkState (st : DialogState) : DialogState :=
  { st with
    okEnabled := !(pyStripStr st.nameVal).isEmpty &&
      !(pyStripStr st.pathVal).isEmpty }

/-- Model of `configure_category(idx, initial, callback)` up to the point where
control returns to the event loop: the inputs hold the initial values, the
window exists, `_update_ok_state()` has run once and
`_set_modal_state(view, True)` has set the modal flag. -/
def configureCategoryOpen (idx : Nat) (initName initPath : String) :
    DialogState :=
  updateOkState
    { idx := idx, nameVal := initName, pathVal := initPath,
      okEnabled := true, isOpen := true, modalOpen := true, emitted := [] }

/-- User events the open dialog can receive.  `browse r` is a Browse click
whose native folder dialog returned `r` (`""` when cancelled). -/
inductive DEvent
  | setName (s : String)
  | setPath (s : String)
  | browse (result : String)
  | clickSave
  | clickCancel
  | clickDelete
deriving DecidableEq, Repr

/-- One event step of the dialog.  After `dpg.delete_item(window_id)` the
widgets are gone, so a closed dialog receives no events.  The input-text
callbacks run `_update_ok_state`; `_on_browse` fills the folder field and
runs it only when a folder was chosen; a Save click reaches `_on_ok` only
while the Save button is enabled; `_on_ok` / `_on_cancel` / `_on_delete`
invoke the callback once, clear the modal flag and delete the window. -/
def dialogStep (st : DialogState) (e : DEvent) : DialogState :=
  if st.isOpen then
    match e with
    | .setName s => updateOkState { st with nameVal := s }
    | .setPath s => updateOkState { st with pathVal := s }
    | .browse r =>
        if r.isEmpty then st else updateOkState { st with pathVal := r }
    | .clickSave =>
        if st.okEnabled then
          { st with
            emitted := st.emitted ++
              [⟨.save, st.idx, some st.nameVal, some st.pathVal⟩],
            modalOpen := false, isOpen := false }
        else st
    | .clickCancel =>
        { st with
          emitted := st.emitted ++ [⟨.cancel, st.idx, none, none⟩],
          modalOpen := false, isOpen := false }
    | .clickDelete =>
        { st with
          emitted := st.emitted ++ [⟨.delete, st.idx, none, none⟩],
          modalOpen := false, isOpen := false }
  else st

/-- Run the dialog over a sequence of events. -/
def dialogRun (st : DialogState) (evts : List DEvent) : DialogState :=
  evts.foldl dialogStep st

/-- An outcome is well-formed for slot `i` when it carries that index and,
for a save, both payload fields stripped non-empty. -/
def outcomeOk (i : Nat) (o : Outcome) : Prop :=
  o.idx = i ∧
  (o.action = .save →
    ∃ n p, o.name = some n ∧ o.path = some p ∧
      ¬(pyStripStr n).isEmpty ∧ ¬(pyStripStr p).isEmpty)

/-- Reachability invariant of the dialog: either it is still open, has
emitted nothing, holds the modal flag and its Save button tracks the two
fields; or it is closed, emitted exactly one well-formed outcome and the
modal flag is clear. -/
def dialogInv (i : Nat) (st : DialogState) : Prop :=
  st.idx = i ∧
  ((st.isOpen = true ∧ st.emitted = [] ∧ st.modalOpen = true ∧
      st.okEnabled = (!(pyStripStr st.nameVal).isEmpty &&
        !(pyStripStr st.pathVal).isEmpty)) ∨
    (st.isOpen = false ∧ st.modalOpen = false ∧
      ∃ o, st.emitted = [o] ∧ outcomeOk i o))

/-- The dialog state after opening `configure_category(idx, initial, cb)`
and processing an event sequence. -/
def dialogFinal (idx : Nat) (initName initPath : String)
    (evts : List DEvent) : DialogState :=
  dialogRun (configureCategoryOpen idx initName initPath) evts

/-- The contract of one `configure_category` invocation for slot `i`: the
callback ran at most once and only with well-formed outcomes; once it ran,
the modal flag is clear and the window is gone; while the window is still
open nothing has been emitted, the modal flag is held, the Save button is
enabled exactly when both stripped fields are non-empty, and an enabled Save
click emits exactly the save outcome carrying the current field values. -/
def dialogSafe (i : Nat) (st : DialogState) : Prop :=
  st.emitted.length ≤ 1 ∧
  (∀ o ∈ st.emitted, outcomeOk i o) ∧
  (st.emitted ≠ [] → st.modalOpen = false ∧ st.isOpen = false) ∧
  (st.isOpen = true →
    st.emitted = [] ∧ st.modalOpen = true ∧
    st.okEnabled = (!(pyStripStr st.nameVal).isEmpty &&
      !(pyStripStr st.pathVal).isEmpty) ∧
    (st.okEnabled = true →
      dialogStep st .clickSave =
        { st with
          emitted := [⟨.save, i, some st.nameVal, some st.pathVal⟩],
          modalOpen := false, isOpen := false }))

/-! ### Message dialogs, How-to dialog, About dialog
(`src/view/dialogs.py`)

`_show_message_dialog` (used by `show_info` / `show_warning` / `show_error`)
creates a toolkit-modal window with an OK button whose callback only deletes
the window; neither path calls `_set_modal_state`.  `show_how_to` likewise
never touches the view's modal flag.  `show_about` calls
`_set_modal_state(view, True)` when showing and `_set_modal_state(view,
False)` in its Close callback. -/

/-- State of one message dialog (`_show_message_dialog`) together with the
view's modal flag. -/
structure MsgDialogState where
  winExists : Bool
  viewModalFlag : Bool
deriving DecidableEq, Repr

/-- Model of `_show_message_dialog`: creates the window; the view's modal flag is
never consulted or written. -/
def showMessageDialog (flag : Bool) : MsgDialogState :=
  { winExists := true, viewModalFlag := flag }

/-- The OK button of a message dialog: `dpg.delete_item(window_id)` only. -/
def msgCloseDialog (st : MsgDialogState) : MsgDialogState :=
  { st with winExists := false }

/-- State of the How-to dialog together with the view's modal flag. -/
structure HowToState where
  winExists : Bool
  viewModalFlag : Bool
deriving DecidableEq, Repr

/-- Model of `show_how_to`: creates the window; the view's modal flag is never
touched. -/
def showHowTo (flag : Bool) : HowToState :=
  { winExists := true, viewModalFlag := flag }

/-- The Close button of the How-to dialog: deletes the window only. -/
def howToClose (st : HowToState) : HowToState :=
  { st with winExists := false }

/-- State of the About dialog together with the view's modal flag. -/
structure AboutState where
  winExists : Bool
  winShown : Bool
  viewModalFlag : Bool
deriving DecidableEq, Repr

/-- Model of `show_about`: creates the window on first use, sets the modal flag true
and shows the window. -/
def showAbout (_st : AboutState) : AboutState :=
  { winExists := true, winShown := true, viewModalFlag := true }

/-- The Close button of the About dialog (`close_popup`): clears the modal
flag and hides (keeps) the window. -/
def aboutClose (st : AboutState) : AboutState :=
  { st with winShown := false, viewModalFlag := false }

/-! ### One-dialog-at-a-time behaviour (`configure_category` and
`DearPyGuiView._on_select_folder`)

`configure_category` builds its window under a fresh `uuid4`-based tag each
call and contains no guard against an already-open dialog;
`_on_select_folder` returns immediately when `self._modal_open` is true. -/

/-- Process-level dialog bookkeeping: the number of existing category
configuration windows (each call creates one under a fresh tag), the view's
modal flag and the number of times the registered `select_folder` callback
ran. -/
structure ProcState where
  configWindows : Nat
  modalFlag : Bool
  selectFolderCalls : Nat
deriving DecidableEq, Repr

/-- Model of `configure_category` at process level: unconditionally creates a new
dialog window under a fresh tag and sets the modal flag. -/
def procConfigureCategory (st : ProcState) : ProcState :=
  { st with configWindows := st.configWindows + 1, modalFlag := true }

/-- Model of `DearPyGuiView._on_select_folder` at process level: a no-op when the
modal flag is set, else it runs the registered callback (which shows the
folder picker). -/
def procOnSelectFolder (st : ProcState) : ProcState :=
  if st.modalFlag then st
  else { st with selectFolderCalls := st.selectFolderCalls + 1 }

/-! ### Reentrancy of the select-folder action
(`DearPyGuiView._on_select_folder` /
`DearPyGuiView.set_select_folder_button_enabled`)

`_on_select_folder` is installed only as the callback of the
`select_folder_button`; the toolkit delivers a click to the handler only
while that button is enabled.  The handler returns at once when a modal is
open, otherwise disables the button, invokes the registered `select_folder`
callback if any, and re-enables the button in a `finally` block.  A second
activation arriving while the first call has not returned therefore finds
the button disabled. -/

/-- State of the select-folder path: the modal flag, the enabled state of
the `select_folder_button`, whether a `select_folder` callback is
registered, and how many times that callback ran. -/
structure SFState where
  modalOpen : Bool
  btnEnabled : Bool
  registered : Bool
  calls : Nat
deriving DecidableEq, Repr

/-- Body of `_on_select_folder` when the registered callback performs no
nested activation of the button. -/
def sfHandlerCore (st : SFState) : SFState :=
  if st.modalOpen then st
  else
    let st1 := { st with btnEnabled := false }
    let st2 :=
      if st1.registered then { st1 with calls := st1.calls + 1 } else st1
    { st2 with btnEnabled := true }

/-- A click on the select-folder button: the toolkit runs `_on_select_folder`
only while the button is enabled. -/
def sfActivateCore (st : SFState) : SFState :=
  if st.btnEnabled then sfHandlerCore st else st

/-- Body of `_on_select_folder` when the registered callback itself triggers
a second activation of the button before the first call returns. -/
def sfHandlerNested (st : SFState) : SFState :=
  if st.modalOpen then st
  else
    let st1 := { st with btnEnabled := false }
    let st2 :=
      if st1.registered then sfActivateCore { st1 with calls := st1.calls + 1 }
      else st1
    { st2 with btnEnabled := true }

/-- A click on the select-folder button whose callback re-activates the
button while the first call is still in flight. -/
def sfActivateNested (st : SFState) : SFState :=
  if st.btnEnabled then sfHandlerNested st else st

/-! ### Image display (`show_image` in both front-ends)

`DearPyGuiView.show_image(photo)`: with `None`, points the fixed-size image
widget at the transparent placeholder texture and keeps its
`IMAGE_DISPLAY_WIDTH x IMAGE_DISPLAY_HEIGHT` size; with a PIL image, converts
it to RGBA, divides by 255.0 into float RGBA data, writes that to the image
texture and keeps the widget at the same fixed size (the toolkit stretches
the texture into the widget).  `MainWindow.show_image(photo)`: with a truthy
photo, configures the label with it and saves a reference; with `None`,
configures `image=''` and drops the reference — the source sets no
placeholder and no dimensions. -/

/-- A decoded picture pushed into the view, given by its RGBA rendering:
pixel dimensions plus one 0–255 RGBA quadruple per pixel.  (`show_image`
first runs PIL's `convert("RGBA")` on any other mode; that library call is
outside this repository, so the embedding takes the RGBA rendering as the
image's content.) -/
structure PILImage where
  width : Nat
  height : Nat
  rgba : List (Nat × Nat × Nat × Nat)
deriving DecidableEq, Repr

/-- Which texture the DearPyGui image widget currently shows. -/
inductive TexTag
  | placeholder
  | image
deriving DecidableEq, Repr

/-- Model of `IMAGE_DISPLAY_WIDTH` in `dearpygui_view.py`. -/
def IMAGE_DISPLAY_WIDTH : Nat := 576

/-- Model of `IMAGE_DISPLAY_HEIGHT` in `dearpygui_view.py`. -/
def IMAGE_DISPLAY_HEIGHT : Nat := 360

/-- The DearPyGui image widget: bound texture, widget size, and the dynamic
image texture's current float data. -/
structure DPGDisplay where
  texture : TexTag
  dispWidth : Nat
  dispHeight : Nat
  textureData : List ℚ
deriving DecidableEq, Repr

/-- The `np.asarray(photo, dtype=np.float32) / 255.0` step followed by
flattening: each 0–255 RGBA byte becomes an exact rational in `[0, 1]`. -/
def normalizeRGBA (img : PILImage) : List ℚ :=
  img.rgba.flatMap (fun p =>
    [(p.1 : ℚ) / 255, (p.2.1 : ℚ) / 255, (p.2.2.1 : ℚ) / 255,
      (p.2.2.2 : ℚ) / 255])

/-- Model of `DearPyGuiView.show_image`. -/
def dpgShowImage (st : DPGDisplay) (photo : Option PILImage) : DPGDisplay :=
  match photo with
  | none =>
      { st with
        texture := .placeholder,
        dispWidth := IMAGE_DISPLAY_WIDTH, dispHeight := IMAGE_DISPLAY_HEIGHT }
  | some img =>
      { texture := .image,
        dispWidth := IMAGE_DISPLAY_WIDTH, dispHeight := IMAGE_DISPLAY_HEIGHT,
        textureData := normalizeRGBA img }

/-- The Tkinter image label: the image currently configured on it (`none`
models `image=''`) and the garbage-collection reference `photo_ref`; photos
are identified by numeric ids. -/
structure TkImageState where
  image : Option Nat
  photoRef : Option Nat
deriving DecidableEq, Repr

/-- Model of `MainWindow.show_image`. -/
def tkShowImage (_st : TkImageState) (photo : Option Nat) : TkImageState :=
  match photo with
  | some p => { image := some p, photoRef := some p }
  | none => { image := none, photoRef := none }

/-! ### Category grid rendering (`set_categories` in both front-ends) -/

/-- One `{name, path}` category entry. -/
structure Category where
  name : String
  path : String
deriving DecidableEq, Repr

/-- The dict `{"name": "", "path": ""}` used for missing entries. -/
def emptyCategory : Category := ⟨"", ""⟩

/-- Visual themes a category button can carry in the DearPyGui view:
`category_defined`, plain `category`, or the transient `category_feedback`
pulse. -/
inductive CatTheme
  | defined
  | undefined
  | feedback
deriving DecidableEq, Repr

/-- A rendered DearPyGui category button: its label and bound theme. -/
structure CatButton where
  label : String
  theme : CatTheme
deriving DecidableEq, Repr

/-- Python truthiness test `name and path` on the entry at `idx` (missing
entries act as the empty dict): true exactly when both strings are
non-empty. -/
def catDefined (idx : Nat) (cats : List Category) : Bool :=
  !(cats.getD idx emptyCategory).name.isEmpty &&
    !(cats.getD idx emptyCategory).path.isEmpty

/-- Model of `DearPyGuiView._create_category_button` for index `idx` of a snapshot:
label `"{idx+1}: {name}"` when the name is truthy else `"{idx+1}: [Empty]"`,
`category_defined` theme exactly when `name and path` is truthy. -/
def dpgCategoryButton (idx : Nat) (cats : List Category) : CatButton :=
  let cat := cats.getD idx emptyCategory
  { label :=
      if cat.name.isEmpty then toString (idx + 1) ++ ": [Empty]"
      else toString (idx + 1) ++ ": " ++ cat.name,
    theme := if catDefined idx cats then .defined else .undefined }

/-- Model of `DearPyGuiView.set_categories`: deletes every child of the categories
container and creates 9 buttons over a 3×3 grid, index `row*3+col`, i.e.
indices 0..8 in order; entries beyond the list act as
`{"name": "", "path": ""}`. -/
def dpgSetCategories (cats : List Category) : List CatButton :=
  (List.range 9).map (fun idx => dpgCategoryButton idx cats)

/-- Button text in `MainWindow._rebuild_category_grid`: the entry's name
when `i < len(categories)` and both fields are truthy, else the
"Select a category" placeholder text. -/
def tkCategoryButtonText (idx : Nat) (cats : List Category) : String :=
  if catDefined idx cats then
    toString (idx + 1) ++ ": " ++ (cats.getD idx emptyCategory).name
  else toString (idx + 1) ++ ": Select a category"

/-- Model of `MainWindow.set_categories`: destroys the old buttons and rebuilds
always 9 buttons (`for i in range(9)`). -/
def tkSetCategories (cats : List Category) : List String :=
  (List.range 9).map (fun idx => tkCategoryButtonText idx cats)

/-! ### Feedback pulse timers (`DearPyGuiView._show_button_feedback`)

Each trigger cancels any pending timer for that button
(`timer.cancel()` — a cancelled timer never runs its body), binds the
`category_feedback` theme and starts a fresh `threading.Timer` whose body
`restore_theme` re-binds the resting theme chosen from the button's label
and removes the timer-map entry.  Pending timers are modelled per index;
timer objects get fresh numeric identities from a counter, and only the
timer currently recorded for an index can fire. -/

/-- Substring test: does the pattern occur inside the list? -/
def containsSub (pat : List Char) : List Char → Bool
  | [] => pat.isEmpty
  | c :: rest => pat.isPrefixOf (c :: rest) || containsSub pat rest

/-- Model of `is_empty = '[Empty]' in label if label else True` inside
`restore_theme`: an empty (falsy) label counts as empty. -/
def labelIsEmptyCat (l : String) : Bool :=
  if l.isEmpty then true else containsSub "[Empty]".data l.data

/-- State of the category-button feedback machinery: which buttons exist
(`_category_button_ids`), the pending uncancelled timer per index
(`_feedback_timers`), the theme bound to each button, each button's label
(read back by `restore_theme`), and a counter giving fresh timer
identities. -/
structure FBState where
  btnExists : Nat → Bool
  timers : Nat → Option Nat
  themes : Nat → CatTheme
  labels : Nat → String
  nextId : Nat

/-- Model of `restore_theme` for button `idx` (the body of its pulse timer): if the
button still exists, re-bind the resting theme chosen from its label; then
drop the timer-map entry. -/
def restoreTheme (st : FBState) (idx : Nat) : FBState :=
  let st1 :=
    if st.btnExists idx then
      { st with
        themes := Function.update st.themes idx
          (if labelIsEmptyCat (st.labels idx) then CatTheme.undefined
           else CatTheme.defined) }
    else st
  { st1 with timers := Function.update st1.timers idx none }

/-- Firing of the timer with identity `t` for button `idx`: a timer
cancelled (replaced) before it fired never runs; only the pending timer
recorded for `idx` runs `restore_theme`. -/
def fireTimer (st : FBState) (idx t : Nat) : FBState :=
  if st.timers idx = some t then restoreTheme st idx else st

/-- Model of `DearPyGuiView._show_button_feedback`: a no-op when `idx` has no button;
else cancels any pending timer for this button, binds the
`category_feedback` theme, and starts a fresh pulse timer recorded as the
only pending one for this button. -/
def showButtonFeedback (st : FBState) (idx : Nat) : FBState :=
  if st.btnExists idx then
    { st with
      timers := Function.update st.timers idx (some st.nextId),
      themes := Function.update st.themes idx CatTheme.feedback,
      nextId := st.nextId + 1 }
  else st

/-! ### Status line formatting (`update_status` in both front-ends)

`MainWindow.update_status(text, file_size_kb)` matches
`^(.*?)(\s*\(\d+/\d+\))$` against the text when a size is given; on a match
it rebuilds the text as `f"{group1.strip()}{' [%.0f KB]'} {group2}"`, else it
appends `f" [{size:.0f} KB]"`.  `DearPyGuiView.update_status` always appends
`f" [{size:.1f} KB]"`.  File sizes, `float` in Python, are embedded as exact
rationals; CPython's fixed-point formatting rounds half to even. -/

/-- Round the fraction `n / d` (`d` positive) half to even, as CPython's
fixed-point float formatting does at a tie: with `f` the floor and `r` the
remainder of the floor division, the fractional part `r/d` is compared
against one half.  Rounding only depends on the value `n / d`, so the
representation need not be reduced. -/
def roundHalfEvenFrac (n d : ℤ) : ℤ :=
  let f := Int.fdiv n d
  let r := n - f * d
  if 2 * r < d then f
  else if d < 2 * r then f + 1
  else if f % 2 = 0 then f else f + 1

/-- Python `f"{q:.0f}"`, the file size embedded as an exact rational. -/
def fmtKB0 (q : ℚ) : String :=
  toString (roundHalfEvenFrac q.num (q.den : ℤ))

/-- Python `f"{q:.1f}"`: one decimal digit, rounding `10*q` half to even. -/
def fmtKB1 (q : ℚ) : String :=
  let n := roundHalfEvenFrac (q.num * 10) (q.den : ℤ)
  (if n < 0 then "-" else "") ++
    toString (n.natAbs / 10) ++ "." ++ toString (n.natAbs % 10)

/-- Split a leading run of decimal digits (`\d+` greedy) off a list. -/
def takeDigits (l : List Char) : List Char × List Char :=
  (l.takeWhile Char.isDigit, l.dropWhile Char.isDigit)

/-- Does the whole list match `\s*\(\d+/\d+\)` — the second group of the
pattern `^(.*?)(\s*\(\d+/\d+\))$` used by `MainWindow.update_status`?
(`\s*` is greedy; backtracking cannot help since `\(` never matches a
whitespace character.) -/
def isCounterSuffix (l : List Char) : Bool :=
  match l.dropWhile pyIsSpace with
  | '(' :: r1 =>
      match takeDigits r1 with
      | (_ :: _, '/' :: r3) =>
          match takeDigits r3 with
          | (_ :: _, [')']) => true
          | _ => false
      | _ => false
  | _ => false

/-- The split performed by `re.match(r'^(.*?)(\s*\(\d+/\d+\))$', text)`:
the lazy first group takes the shortest prefix whose complementary suffix
matches the counter pattern; `none` when no split matches (no regex
match). -/
def findCounterSplit : List Char → Option (List Char × List Char)
  | [] => if isCounterSuffix [] then some ([], []) else none
  | c :: rest =>
      if isCounterSuffix (c :: rest) then some ([], c :: rest)
      else (findCounterSplit rest).map (fun pr => (c :: pr.1, pr.2))

/-- Model of `MainWindow.update_status`. -/
def tkUpdateStatus (text : String) (fileSizeKb : Option ℚ) : String :=
  match fileSizeKb with
  | none => text
  | some q =>
      match findCounterSplit text.data with
      | some pr =>
          String.mk (pyStrip pr.1) ++ (" [" ++ fmtKB0 q ++ " KB]") ++ " " ++
            String.mk pr.2
      | none => text ++ (" [" ++ fmtKB0 q ++ " KB]")

/-- Model of `DearPyGuiView.update_status`. -/
def dpgUpdateStatus (text : String) (fileSizeKb : Option ℚ) : String :=
  match fileSizeKb with
  | none => text
  | some q => text ++ (" [" ++ fmtKB1 q ++ " KB]")

end PhotoSorter

namespace PhotoSorter

/-! ### C1 / C2 theorems -/

/-- Claim C1 (as stated) is false: in the Tkinter front-end, after binding
distinct handler pairs to indices 0 and 1, pressing number key 1 (index 0)
invokes the click handler bound at index 1 (the most recently bound one) and
invokes the handler bound at index 0 zero times, not exactly once. -/
theorem c1_counterexample :
    let st := tkBindCategory (tkBindCategory TkState.init 0 10 20) 1 11 21
    tkKeyPress st 0 = [(11, 0)] ∧ countCalls 10 (tkKeyPress st 0) = 0 := by
  constructor <;> rfl

/-- Claim C1, amended: in the DearPyGui front-end the property holds in full:
after `bind_category(idx, f, g)`, a left-click or (with no modal open) the
number key `idx+1` invokes `f(idx)` exactly once and a right-click invokes
`g(idx)` exactly once, even with distinct pairs on other indices.  In the
Tkinter front-end, left- and right-click on button `idx` invoke `f(idx)` and
`g(idx)` exactly once, but the number key `idx+1` invokes the most recently
bound click handler (applied to `idx`), not necessarily the pair bound at
`idx`. -/
theorem c1_amended (st : DPGState) (st' : TkState) (idx : Nat)
    (f g : Handler) :
    (let d := dpgBindCategory st idx f g
     (d.modalOpen = false →
        dpgHandleKeyboardCategory d idx = [(f, idx)]) ∧
     dpgOnCategoryClick d idx = [(f, idx)] ∧
     dpgOnCategoryRightClick d idx = [(g, idx)]) ∧
    (let t := tkBindCategory st' idx f g
     tkButtonLeftClick t idx = [(f, idx)] ∧
     tkButtonRightClick t idx = [(g, idx)] ∧
     ∀ j, tkKeyPress t j = [(f, j)]) := by
  refine ⟨⟨?_, ?_, ?_⟩, ?_, ?_, ?_⟩
  · intro hm
    simp only [dpgBindCategory] at hm
    simp [dpgHandleKeyboardCategory, dpgOnCategoryClick, dpgBindCategory,
      Function.update, hm]
  · simp [dpgOnCategoryClick, dpgBindCategory, Function.update]
  · simp [dpgOnCategoryRightClick, dpgBindCategory, Function.update]
  · simp [tkButtonLeftClick, tkBindCategory, Function.update]
  · simp [tkButtonRightClick, tkBindCategory, Function.update]
  · intro j
    simp [tkKeyPress, tkBindCategory]

/-- Witness for `c1_amended` at a concrete state and index. -/
theorem c1_amended_witness :
    dpgHandleKeyboardCategory (dpgBindCategory DPGState.init 3 7 8) 3 =
      [(7, 3)] ∧
    tkButtonLeftClick (tkBindCategory TkState.init 3 7 8) 3 = [(7, 3)] := by
  have h := c1_amended DPGState.init TkState.init 3 7 8
  exact ⟨h.1.1 rfl, h.2.1⟩

/-- Claim C2 (as stated) is false for the Tkinter front-end: with the modal
flag true and a click handler stored, pressing a number key still invokes the
handler once, not zero times (the keyboard binding in
`MainWindow.bind_keyboard_shortcuts` never consults a modal flag). -/
theorem c2_counterexample :
    let st : TkState := ⟨fun _ => none, some 10, some 20, true⟩
    tkKeyPress st 0 = [(10, 0)] ∧ countCalls 10 (tkKeyPress st 0) = 1 := by
  constructor <;> rfl

/-- Claim C2, amended: in the DearPyGui front-end, while the modal flag is
true, a number key for any category index performs zero handler invocations
(the keystroke is swallowed).  The Tkinter front-end's number-key binding
does not consult the modal flag: whenever a click handler is stored it is
invoked once regardless of the flag. -/
theorem c2_amended (st : DPGState) (st' : TkState) (idx : Nat) (h : Handler) :
    (st.modalOpen = true → dpgHandleKeyboardCategory st idx = []) ∧
    (st'.categoryClickCallback = some h → tkKeyPress st' idx = [(h, idx)]) := by
  constructor
  · intro hm
    simp [dpgHandleKeyboardCategory, hm]
  · intro hc
    simp [tkKeyPress, hc]

/-- Witness for `c2_amended`: a concrete modal-open DearPyGui state swallows
the keystroke, and a concrete modal-open Tkinter state still dispatches. -/
theorem c2_amended_witness :
    dpgHandleKeyboardCategory ⟨fun _ => some (4, 5), true⟩ 2 = [] ∧
    tkKeyPress ⟨fun _ => none, some 9, none, true⟩ 2 = [(9, 2)] := by
  have h := c2_amended ⟨fun _ => some (4, 5), true⟩
    ⟨fun _ => none, some 9, none, true⟩ 2 9
  exact ⟨h.1 rfl, h.2 rfl⟩

/-! ### Dialog invariant lemmas (shared by the dialog claims) -/

/-- The invariant holds right after `configure_category` opens. -/
theorem dialogInv_open (i : Nat) (n p : String) :
    dialogInv i (configureCategoryOpen i n p) :=
  ⟨rfl, Or.inl ⟨rfl, rfl, rfl, rfl⟩⟩

/-- Every dialog event preserves the invariant. -/
theorem dialogInv_step (i : Nat) (st : DialogState) (e : DEvent)
    (h : dialogInv i st) : dialogInv i (dialogStep st e) := by
  obtain ⟨hidx, hcase⟩ := h
  rcases hcase with ⟨hopen, hemit, hmodal, hok⟩ |
    ⟨hclosed, hmodal, o, hemit, hokc⟩
  · cases e with
    | setName s =>
        refine ⟨?_, Or.inl ⟨?_, ?_, ?_, ?_⟩⟩ <;>
          simp [dialogStep, hopen, updateOkState, hidx, hemit, hmodal]
    | setPath s =>
        refine ⟨?_, Or.inl ⟨?_, ?_, ?_, ?_⟩⟩ <;>
          simp [dialogStep, hopen, updateOkState, hidx, hemit, hmodal]
    | browse r =>
        by_cases hr : r.isEmpty
        · refine ⟨?_, Or.inl ⟨?_, ?_, ?_, ?_⟩⟩ <;>
            simp [dialogStep, hopen, hr, hidx, hemit, hmodal, hok]
        · refine ⟨?_, Or.inl ⟨?_, ?_, ?_, ?_⟩⟩ <;>
            simp [dialogStep, hopen, hr, updateOkState, hidx, hemit, hmodal]
    | clickSave =>
        by_cases hen : st.okEnabled
        · have hfields : (pyStripStr st.nameVal).isEmpty = false ∧
              (pyStripStr st.pathVal).isEmpty = false := by
            rw [hen] at hok
            constructor <;> simp_all
          refine ⟨?_, Or.inr ⟨?_, ?_,
            ⟨.save, st.idx, some st.nameVal, some st.pathVal⟩, ?_, ?_, ?_⟩⟩
          · simp [dialogStep, hopen, hen, hidx]
          · simp [dialogStep, hopen, hen]
          · simp [dialogStep, hopen, hen]
          · simp [dialogStep, hopen, hen, hemit]
          · exact hidx
          · intro _
            exact ⟨st.nameVal, st.pathVal, rfl, rfl,
              by simp [hfields.1], by simp [hfields.2]⟩
        · have hst : dialogStep st .clickSave = st := by
            simp [dialogStep, hopen, hen]
          rw [hst]
          exact ⟨hidx, Or.inl ⟨hopen, hemit, hmodal, hok⟩⟩
    | clickCancel =>
        refine ⟨?_, Or.inr ⟨?_, ?_,
          ⟨.cancel, st.idx, none, none⟩, ?_, ?_, ?_⟩⟩
        · simp [dialogStep, hopen, hidx]
        · simp [dialogStep, hopen]
        · simp [dialogStep, hopen]
        · simp [dialogStep, hopen, hemit]
        · exact hidx
        · intro hab
          exact absurd hab (by simp)
    | clickDelete =>
        refine ⟨?_, Or.inr ⟨?_, ?_,
          ⟨.delete, st.idx, none, none⟩, ?_, ?_, ?_⟩⟩
        · simp [dialogStep, hopen, hidx]
        · simp [dialogStep, hopen]
        · simp [dialogStep, hopen]
        · simp [dialogStep, hopen, hemit]
        · exact hidx
        · intro hab
          exact absurd hab (by simp)
  · have hst : dialogStep st e = st := by
      simp [dialogStep, hclosed]
    rw [hst]
    exact ⟨hidx, Or.inr ⟨hclosed, hmodal, o, hemit, hokc⟩⟩

/-- The invariant is preserved along any event sequence. -/
theorem dialogInv_run (i : Nat) (st : DialogState) (evts : List DEvent)
    (h : dialogInv i st) : dialogInv i (dialogRun st evts) := by
  induction evts generalizing st with
  | nil => exact h
  | cons e rest ih => exact ih (dialogStep st e) (dialogInv_step i st e h)

/-- Every state reachable from a `configure_category` invocation satisfies
the invariant. -/
theorem dialogFinal_inv (idx : Nat) (n p : String) (evts : List DEvent) :
    dialogInv idx (dialogFinal idx n p evts) :=
  dialogInv_run idx _ evts (dialogInv_open idx n p)

/-! ### C3 theorem -/

/-- Claim C3, confirmed: over any event sequence, a `configure_category`
invocation for slot `idx` invokes its callback at most once and exactly once
per terminal action, only with outcomes whose action is save, cancel or
delete (the only constructors of `DAction`) and whose index is `idx`; a save
outcome carries both stripped fields non-empty; the Save button is enabled
exactly while both stripped fields are non-empty, an enabled Save click
passes exactly the current field values, and after any emitted outcome the
modal flag is false. -/
theorem c3_configure_category (idx : Nat) (n0 p0 : String)
    (evts : List DEvent) : dialogSafe idx (dialogFinal idx n0 p0 evts) := by
  obtain ⟨hidx, hcase⟩ := dialogFinal_inv idx n0 p0 evts
  rcases hcase with ⟨hopen, hemit, hmodal, hok⟩ |
    ⟨hclosed, hmodal, o, hemit, hokc⟩
  · refine ⟨by simp [hemit], by simp [hemit], by simp [hemit], fun _ => ⟨hemit, hmodal, hok, ?_⟩⟩
    intro hen
    simp only [dialogStep, hopen, if_true, hen, hemit, List.nil_append]
    rw [hidx]
  · refine ⟨by simp [hemit], ?_, fun _ => ⟨hmodal, hclosed⟩, fun hc => by rw [hclosed] at hc; cases hc⟩
    intro o' ho'
    rw [hemit] at ho'
    simp at ho'
    rwa [ho']

/-- Witness for `c3_configure_category`: opening slot 2 with empty fields,
typing a name and a path, then clicking Save emits exactly the save outcome
with the typed values and clears the modal flag. -/
theorem c3_configure_category_witness :
    (dialogFinal 2 "" "" [DEvent.setName "Cat", DEvent.setPath "/x"]).okEnabled
      = true ∧
    dialogStep (dialogFinal 2 "" "" [DEvent.setName "Cat", DEvent.setPath "/x"])
        DEvent.clickSave =
      { dialogFinal 2 "" "" [DEvent.setName "Cat", DEvent.setPath "/x"] with
        emitted := [⟨DAction.save, 2, some "Cat", some "/x"⟩],
        modalOpen := false, isOpen := false } := by
  have h := c3_configure_category 2 "" "" [DEvent.setName "Cat",
    DEvent.setPath "/x"]
  obtain ⟨-, -, -, h4⟩ := h
  obtain ⟨-, -, -, hsave⟩ := h4 rfl
  exact ⟨rfl, hsave rfl⟩

/-! ### C4 theorems -/

/-- Claim C4 (as stated) is false: `show_info` (via `_show_message_dialog`)
opens its dialog window without setting the view's modal flag — starting
from a clear flag, the window exists and the flag is still false. -/
theorem c4_counterexample :
    (showMessageDialog false).winExists = true ∧
    (showMessageDialog false).viewModalFlag = false :=
  ⟨rfl, rfl⟩

/-- Claim C4, amended: `configure_category` and the About dialog set the
view's modal flag true on open and clear it on every terminal action; the
message dialogs (info/warning/error) and the How-to dialog never touch the
view's modal flag — their open and close leave it unchanged (they are modal
only through the toolkit's modal-window attribute). -/
theorem c4_amended (flag : Bool) (idx : Nat) (n p : String)
    (ab : AboutState) (msg : MsgDialogState) (ht : HowToState) :
    (configureCategoryOpen idx n p).modalOpen = true ∧
    (showAbout ab).viewModalFlag = true ∧
    (aboutClose ab).viewModalFlag = false ∧
    (showMessageDialog flag).viewModalFlag = flag ∧
    (msgCloseDialog msg).viewModalFlag = msg.viewModalFlag ∧
    (showHowTo flag).viewModalFlag = flag ∧
    (howToClose ht).viewModalFlag = ht.viewModalFlag ∧
    (∀ d : DialogState, d.isOpen = true →
      (dialogStep d .clickCancel).modalOpen = false ∧
      (dialogStep d .clickDelete).modalOpen = false ∧
      (d.okEnabled = true → (dialogStep d .clickSave).modalOpen = false)) := by
  refine ⟨rfl, rfl, rfl, rfl, rfl, rfl, rfl, ?_⟩
  intro d hd
  refine ⟨?_, ?_, ?_⟩
  · simp [dialogStep, hd]
  · simp [dialogStep, hd]
  · intro hen
    simp [dialogStep, hd, hen]

/-- Witness for `c4_amended` at concrete states: a cancel click on an open
dialog clears the modal flag. -/
theorem c4_amended_witness :
    (dialogStep (configureCategoryOpen 1 "A" "/p") DEvent.clickCancel).modalOpen
      = false := by
  have h := c4_amended true 1 "A" "/p" ⟨false, false, false⟩ ⟨true, false⟩
    ⟨true, false⟩
  exact (h.2.2.2.2.2.2.2 (configureCategoryOpen 1 "A" "/p") rfl).1

/-! ### C5 theorems -/

/-- Claim C5 (as stated) is false: `configure_category` has no guard
against an already-open dialog — invoking it a second time while the first
dialog is active creates a second dialog window (each call builds a window
under a fresh uuid tag), not a no-op. -/
theorem c5_counterexample :
    (procConfigureCategory (procConfigureCategory ⟨0, false, 0⟩)).configWindows
      = 2 :=
  rfl

/-- Claim C5, amended: while the modal flag is set (as it is whenever a
category-configuration dialog is open), invoking the select-folder handler
is a no-op, so no folder picker opens alongside it; but `configure_category`
itself is unguarded: each invocation creates one more dialog window and sets
the modal flag. -/
theorem c5_amended (st : ProcState) :
    (st.modalFlag = true → procOnSelectFolder st = st) ∧
    (procConfigureCategory st).configWindows = st.configWindows + 1 ∧
    (procConfigureCategory st).modalFlag = true := by
  refine ⟨?_, rfl, rfl⟩
  intro hm
  simp [procOnSelectFolder, hm]

/-- Witness for `c5_amended` at a concrete modal-open state. -/
theorem c5_amended_witness :
    procOnSelectFolder ⟨1, true, 0⟩ = ⟨1, true, 0⟩ ∧
    (procConfigureCategory ⟨1, true, 0⟩).configWindows = 2 :=
  ⟨(c5_amended ⟨1, true, 0⟩).1 rfl, (c5_amended ⟨1, true, 0⟩).2.1⟩

/-! ### C6 theorem -/

/-- Claim C6, confirmed: with no modal open, the select-folder button
enabled and a callback registered, an activation whose callback triggers a
second activation before the first call returns invokes the registered
callback exactly once — the nested activation finds the button disabled and
is a no-op — and the button ends up enabled again. -/
theorem c6_select_folder_reentrant (st : SFState)
    (hm : st.modalOpen = false) (hb : st.btnEnabled = true)
    (hr : st.registered = true) :
    sfActivateNested st = { st with calls := st.calls + 1 } := by
  simp [sfActivateNested, sfHandlerNested, sfActivateCore, sfHandlerCore,
    hm, hb, hr]

/-- Witness for `c6_select_folder_reentrant`: from the initial enabled state
the nested activation yields exactly one callback invocation. -/
theorem c6_select_folder_reentrant_witness :
    sfActivateNested ⟨false, true, true, 0⟩ = ⟨false, true, true, 1⟩ :=
  c6_select_folder_reentrant ⟨false, true, true, 0⟩ rfl rfl rfl

/-! ### C7 theorems -/

/-- Claim C7 (as stated) is false for the Tkinter front-end: starting from a
state that displays an image, `show_image(None)` configures the label with
the empty image and drops the reference — the image area is left with
nothing rendered, not with a placeholder of the fixed display dimensions
(`MainWindow.show_image` mentions no dimensions at all). -/
theorem c7_counterexample :
    tkShowImage ⟨some 5, some 5⟩ none = ⟨none, none⟩ :=
  rfl

/-- Claim C7, amended: in the DearPyGui front-end, from every prior display
state `show_image(None)` binds the placeholder texture at the fixed
`576x360` display size, and `show_image(img)` shows the /255-normalised RGBA
data of `img` in the same fixed display area.  In the Tkinter front-end,
`show_image(None)` clears the label's image (no fixed-size placeholder) and
`show_image(photo)` displays the photo exactly as given (this layer does no
scaling). -/
theorem c7_amended (st : DPGDisplay) (photo : Option PILImage)
    (t : TkImageState) (p : Nat) :
    ((dpgShowImage st photo).dispWidth = IMAGE_DISPLAY_WIDTH ∧
      (dpgShowImage st photo).dispHeight = IMAGE_DISPLAY_HEIGHT) ∧
    (photo = none → (dpgShowImage st photo).texture = TexTag.placeholder) ∧
    (∀ img, photo = some img →
      (dpgShowImage st photo).texture = TexTag.image ∧
      (dpgShowImage st photo).textureData = normalizeRGBA img) ∧
    tkShowImage t none = ⟨none, none⟩ ∧
    tkShowImage t (some p) = ⟨some p, some p⟩ := by
  refine ⟨?_, ?_, ?_, rfl, rfl⟩
  · cases photo <;> exact ⟨rfl, rfl⟩
  · rintro rfl
    rfl
  · rintro img rfl
    exact ⟨rfl, rfl⟩

/-- Witness for `c7_amended` at concrete states: the fixed-size placeholder
after `show_image(None)` in the DearPyGui view. -/
theorem c7_amended_witness :
    (dpgShowImage ⟨TexTag.image, 576, 360, [1]⟩ none).texture =
      TexTag.placeholder ∧
    (dpgShowImage ⟨TexTag.image, 576, 360, [1]⟩ none).dispWidth = 576 := by
  have h := c7_amended ⟨TexTag.image, 576, 360, [1]⟩ none ⟨none, none⟩ 0
  exact ⟨h.2.1 rfl, h.1.1⟩

/-! ### C8 theorems -/

/-- A string's `isEmpty` is `false` exactly when the string is non-empty. -/
theorem isEmpty_false_iff (s : String) : s.isEmpty = false ↔ s ≠ "" := by
  rw [Bool.eq_false_iff]
  exact not_congr (String.isEmpty_iff s)

/-- The test `catDefined` holds exactly when the entry exists and has both
fields non-empty. -/
theorem catDefined_iff (cats : List Category) (i : Nat) :
    catDefined i cats = true ↔
      ∃ h : i < cats.length,
        (cats.get ⟨i, h⟩).name ≠ "" ∧ (cats.get ⟨i, h⟩).path ≠ "" := by
  by_cases hlt : i < cats.length
  · rw [catDefined, List.getD_eq_getElem cats emptyCategory hlt]
    simp only [Bool.and_eq_true, Bool.not_eq_true', isEmpty_false_iff,
      List.get_eq_getElem]
    exact ⟨fun h => ⟨hlt, h⟩, fun ⟨_, h⟩ => h⟩
  · rw [catDefined, List.getD_eq_default cats emptyCategory
      (Nat.le_of_not_lt hlt)]
    constructor
    · intro h
      exact absurd h (by decide)
    · rintro ⟨h, -⟩
      exact absurd h hlt

/-- Claim C8, confirmed: for every input list, `set_categories` rebuilds the
grid to exactly 9 buttons indexed 0..8 in both front-ends; button `i` is in
the defined visual state (`category_defined` theme in the DearPyGui view,
name text in the Tkinter view) exactly when entry `i` exists with both name
and path non-empty, and in the unconfigured state otherwise. -/
theorem c8_set_categories (cats : List Category) (i : Nat) (hi : i < 9) :
    (dpgSetCategories cats).length = 9 ∧
    (tkSetCategories cats).length = 9 ∧
    ((dpgSetCategories cats).getD i ⟨"", CatTheme.undefined⟩).theme =
      (if catDefined i cats then CatTheme.defined else CatTheme.undefined) ∧
    (tkSetCategories cats).getD i "" =
      (if catDefined i cats then
        toString (i + 1) ++ ": " ++ (cats.getD i emptyCategory).name
       else toString (i + 1) ++ ": Select a category") ∧
    (catDefined i cats = true ↔
      ∃ h : i < cats.length,
        (cats.get ⟨i, h⟩).name ≠ "" ∧ (cats.get ⟨i, h⟩).path ≠ "") := by
  have hlen : (dpgSetCategories cats).length = 9 := by
    simp [dpgSetCategories]
  have hlen' : (tkSetCategories cats).length = 9 := by
    simp [tkSetCategories]
  refine ⟨hlen, hlen', ?_, ?_, catDefined_iff cats i⟩
  · rw [List.getD_eq_getElem _ _ (by rw [hlen]; exact hi)]
    simp [dpgSetCategories, dpgCategoryButton, hi]
  · rw [List.getD_eq_getElem _ _ (by rw [hlen']; exact hi)]
    simp [tkSetCategories, tkCategoryButtonText, hi]

/-- Witness for `c8_set_categories`: a single defined entry yields button 0
defined and button 1 unconfigured. -/
theorem c8_set_categories_witness :
    ((dpgSetCategories [⟨"A", "/x"⟩]).getD 0 ⟨"", CatTheme.undefined⟩).theme =
      CatTheme.defined ∧
    ((dpgSetCategories [⟨"A", "/x"⟩]).getD 1 ⟨"", CatTheme.undefined⟩).theme =
      CatTheme.undefined ∧
    (dpgSetCategories []).length = 9 ∧
    (tkSetCategories [⟨"A", "/x"⟩]).getD 1 "" = "2: Select a category" := by
  have h0 := c8_set_categories [⟨"A", "/x"⟩] 0 (by decide)
  have h1 := c8_set_categories [⟨"A", "/x"⟩] 1 (by decide)
  have he := c8_set_categories [] 0 (by decide)
  refine ⟨?_, ?_, he.1, ?_⟩
  · rw [h0.2.2.1]
    rfl
  · rw [h1.2.2.1]
    rfl
  · rw [h1.2.2.2.1]
    rfl

/-! ### C9 theorems -/

/-- Claim C9, confirmed: triggering the feedback pulse on an existing
category button and re-triggering it before the pulse timer fires leaves
exactly one pending timer for that button (the second one; the first was
cancelled and its firing is a no-op); firing the remaining timer performs
the single restore to the resting theme determined by the button's label
(defined vs. undefined) and clears the pending entry; the timers and themes
of every other button are untouched throughout. -/
theorem c9_feedback_pulse (st : FBState) (idx j : Nat)
    (hx : st.btnExists idx = true) (hj : j ≠ idx) :
    (showButtonFeedback (showButtonFeedback st idx) idx).timers idx =
      some (st.nextId + 1) ∧
    fireTimer (showButtonFeedback (showButtonFeedback st idx) idx) idx
        st.nextId =
      showButtonFeedback (showButtonFeedback st idx) idx ∧
    (fireTimer (showButtonFeedback (showButtonFeedback st idx) idx) idx
        (st.nextId + 1)).themes idx =
      (if labelIsEmptyCat (st.labels idx) then CatTheme.undefined
       else CatTheme.defined) ∧
    (fireTimer (showButtonFeedback (showButtonFeedback st idx) idx) idx
        (st.nextId + 1)).timers idx = none ∧
    (fireTimer (showButtonFeedback (showButtonFeedback st idx) idx) idx
        (st.nextId + 1)).timers j = st.timers j ∧
    (fireTimer (showButtonFeedback (showButtonFeedback st idx) idx) idx
        (st.nextId + 1)).themes j = st.themes j := by
  have h1 : showButtonFeedback st idx =
      { st with
        timers := Function.update st.timers idx (some st.nextId),
        themes := Function.update st.themes idx CatTheme.feedback,
        nextId := st.nextId + 1 } := by
    simp [showButtonFeedback, hx]
  have h2 : showButtonFeedback (showButtonFeedback st idx) idx =
      { st with
        timers := Function.update st.timers idx (some (st.nextId + 1)),
        themes := Function.update st.themes idx CatTheme.feedback,
        nextId := st.nextId + 2 } := by
    rw [h1]
    simp [showButtonFeedback, hx, Function.update_idem]
  rw [h2]
  have hpend : (Function.update st.timers idx (some (st.nextId + 1))) idx =
      some (st.nextId + 1) := by
    simp [Function.update]
  refine ⟨hpend, ?_, ?_, ?_, ?_, ?_⟩
  · simp [fireTimer, Function.update]
  · simp [fireTimer, hpend, restoreTheme, hx, Function.update]
  · simp [fireTimer, hpend, restoreTheme, hx, Function.update]
  · simp [fireTimer, hpend, restoreTheme, hx, Function.update, hj]
  · simp [fireTimer, hpend, restoreTheme, hx, Function.update, hj]

/-- Witness for `c9_feedback_pulse` on a concrete double-triggered button. -/
theorem c9_feedback_pulse_witness :
    (fireTimer (showButtonFeedback (showButtonFeedback
        ⟨fun _ => true, fun _ => none, fun _ => CatTheme.undefined,
          fun _ => "4: Cats", 0⟩ 3) 3) 3 1).themes 3 = CatTheme.defined ∧
    (showButtonFeedback (showButtonFeedback
        ⟨fun _ => true, fun _ => none, fun _ => CatTheme.undefined,
          fun _ => "4: Cats", 0⟩ 3) 3).timers 3 = some 1 := by
  have h := c9_feedback_pulse
    ⟨fun _ => true, fun _ => none, fun _ => CatTheme.undefined,
      fun _ => "4: Cats", 0⟩ 3 0 rfl (by decide)
  refine ⟨?_, h.1⟩
  rw [h.2.2.1]
  rfl

/-! ### C10 theorems -/

/-- Soundness of the regex split: a successful split decomposes the text,
and the suffix group matches the counter pattern `\s*\(\d+/\d+\)`. -/
theorem findCounterSplit_some (c : List Char) :
    ∀ (l p : List Char), findCounterSplit l = some (p, c) →
      l = p ++ c ∧ isCounterSuffix c = true := by
  intro l
  induction l with
  | nil =>
      intro p h
      have hfalse : isCounterSuffix [] = false := rfl
      rw [findCounterSplit, hfalse] at h
      cases h
  | cons a rest ih =>
      intro p h
      rw [findCounterSplit] at h
      by_cases hc : isCounterSuffix (a :: rest)
      · rw [if_pos hc] at h
        injection h with h'
        obtain ⟨rfl, rfl⟩ := Prod.mk.injEq .. |>.mp h'.symm
        exact ⟨rfl, hc⟩
      · rw [if_neg hc, Option.map_eq_some'] at h
        obtain ⟨⟨p', c'⟩, hrec, heq⟩ := h
        obtain ⟨rfl, rfl⟩ := Prod.mk.injEq .. |>.mp heq.symm
        obtain ⟨hl, hcs⟩ := ih p' hrec
        refine ⟨?_, hcs⟩
        rw [hl]
        rfl

/-- Completeness of the regex split: when the split fails, no suffix of the
text matches the counter pattern (the regex does not match at all). -/
theorem findCounterSplit_none (l : List Char)
    (h : findCounterSplit l = none) :
    ∀ i, isCounterSuffix (l.drop i) = false := by
  induction l with
  | nil =>
      intro i
      rw [List.drop_nil]
      rfl
  | cons a rest ih =>
      rw [findCounterSplit] at h
      by_cases hc : isCounterSuffix (a :: rest)
      · rw [if_pos hc] at h
        cases h
      · rw [if_neg hc] at h
        have hrest : findCounterSplit rest = none := by
          cases hrec : findCounterSplit rest with
          | none => rfl
          | some pr =>
              rw [hrec] at h
              cases h
        intro i
        cases i with
        | zero => simpa using hc
        | succ n =>
            rw [List.drop_succ_cons]
            exact ih hrest n

/-- Claim C10, confirmed: with no size given, both front-ends set the status
to the text unchanged.  With a size, the DearPyGui view always appends
`" [N.N KB]"` (one decimal).  The Tkinter view splits off the longest suffix
matching the counter pattern `\s*\(\d+/\d+\)` — i.e. exactly when the text
ends with a counter `" (i/n)"` — and inserts `" [N KB]"` (integer-rounded)
between the stripped filename and the counter; when the text does not end
with a counter it appends `" [N KB]"`.  (Python floats are embedded as exact
rationals, with half-to-even rounding.) -/
theorem c10_update_status (text : String) (q : ℚ) :
    tkUpdateStatus text none = text ∧
    dpgUpdateStatus text none = text ∧
    dpgUpdateStatus text (some q) = text ++ (" [" ++ fmtKB1 q ++ " KB]") ∧
    (∀ p c, findCounterSplit text.data = some (p, c) →
      text.data = p ++ c ∧ isCounterSuffix c = true ∧
      tkUpdateStatus text (some q) =
        String.mk (pyStrip p) ++ (" [" ++ fmtKB0 q ++ " KB]") ++ " " ++
          String.mk c) ∧
    (findCounterSplit text.data = none →
      (∀ i, isCounterSuffix (text.data.drop i) = false) ∧
      tkUpdateStatus text (some q) = text ++ (" [" ++ fmtKB0 q ++ " KB]")) := by
  refine ⟨rfl, rfl, rfl, ?_, ?_⟩
  · intro p c h
    obtain ⟨hl, hcs⟩ := findCounterSplit_some c text.data p h
    refine ⟨hl, hcs, ?_⟩
    rw [tkUpdateStatus, h]
  · intro h
    refine ⟨findCounterSplit_none text.data h, ?_⟩
    rw [tkUpdateStatus, h]

/-- Witness for `c10_update_status` at concrete inputs: the Tkinter view
inserts the integer size between filename and counter (note the doubled
space from the counter group keeping its leading whitespace), appends when
there is no counter, and the DearPyGui view appends one decimal. -/
theorem c10_update_status_witness :
    tkUpdateStatus "photo.jpg (3/12)" (some 256) =
      "photo.jpg [256 KB]  (3/12)" ∧
    tkUpdateStatus "hello" (some 256) = "hello [256 KB]" ∧
    dpgUpdateStatus "photo.jpg (3/12)"
        (some (⟨511, 2, by decide, by decide⟩ : ℚ)) =
      "photo.jpg (3/12) [255.5 KB]" ∧
    tkUpdateStatus "photo.jpg (3/12)" none = "photo.jpg (3/12)" := by
  have h := c10_update_status "photo.jpg (3/12)" 256
  have h2 := c10_update_status "hello" 256
  have h3 := c10_update_status "photo.jpg (3/12)"
    (⟨511, 2, by decide, by decide⟩ : ℚ)
  refine ⟨?_, ?_, ?_, h.1⟩
  · have hs := h.2.2.2.1 "photo.jpg".data " (3/12)".data (by decide)
    rw [hs.2.2]
    rfl
  · have hn := h2.2.2.2.2 (by decide)
    rw [hn.2]
    rfl
  · rw [h3.2.2.1]
    rfl

end PhotoSorter
